import Mathlib

/- Shallow embedding of the nutrition-tracking backend's aggregation,
health-monitoring and notification-scheduling core.

Conventions used throughout:
* Numeric nutrition values (calories, grams) are rationals (`ℚ`), an exact
  model of the Python numbers flowing through the JSON blobs; the float
  literal `0.9` of the source is the exact rational `9/10`.
* Timestamps are rationals measured in hours (notification service) or in
  days (health monitoring / smart notifications); `timedelta(hours=5)` is
  the literal `5`, `timedelta(days=7)` the literal `7`, and so on.
* SQL rows are Lean structures, tables are Lean lists, and queries are
  `filter`/`find?`/sorting over those lists; `query(...).first()` is the
  first list element matching the filter.
* A JSON dict that may be absent is an `Option` of a structure whose
  fields are themselves `Option`s; `d.get(key, default)` is
  `(field d).getD default`.
-/

/-! ## Dashboard aggregation
Embeds `DashboardService.create_or_update_daily_summary`
(`app/services/dashboard_service.py`, lines 31-128). -/

/-- The `analysis_data` JSON dict stored on a `Meal` row; each nutrient key may
be missing. -/
structure AnalysisData where
  total_calories : Option ℚ
  total_protein : Option ℚ
  total_carbs : Option ℚ
  total_fat : Option ℚ
  total_fiber : Option ℚ
deriving DecidableEq

/-- A `Meal` row, restricted to the columns the daily-summary aggregation
reads. -/
structure Meal where
  user_id : ℕ
  upload_date : ℤ
  analysis_data : Option AnalysisData
deriving DecidableEq

/-- `meal.analysis_data.get(key, 0)` guarded by `if meal.analysis_data:`
(a meal with no analysis data contributes 0 to every total). -/
def mealField (f : AnalysisData → Option ℚ) (m : Meal) : ℚ :=
  match m.analysis_data with
  | none => 0
  | some a => (f a).getD 0

/-- The `daily_goals` JSON dict on a `User` row (only the two keys the
aggregation reads). -/
structure DailyGoals where
  calories : Option ℚ
  protein : Option ℚ
deriving DecidableEq

/-- A `User` row, restricted to what the aggregation reads. -/
structure AppUser where
  id : ℕ
  daily_goals : Option DailyGoals
deriving DecidableEq

/-- `daily_goals = user.daily_goals if user and user.daily_goals else {}`. -/
def userGoals : Option AppUser → DailyGoals
  | some u => u.daily_goals.getD ⟨none, none⟩
  | none => ⟨none, none⟩

/-- A `DailySummary` row. -/
structure DailySummaryRow where
  user_id : ℕ
  date : ℤ
  total_calories : ℚ
  total_protein : ℚ
  total_carbs : ℚ
  total_fat : ℚ
  total_fiber : ℚ
  meals_count : ℕ
  goal_calories_achieved : Bool
  goal_protein_achieved : Bool
deriving DecidableEq

/-- The tables touched by the dashboard service. -/
structure DashboardDB where
  meals : List Meal
  users : List AppUser
  summaries : List DailySummaryRow
deriving DecidableEq

/-- Running nutrient totals of the summation loop. -/
structure NutrientTotals where
  calories : ℚ
  protein : ℚ
  carbs : ℚ
  fat : ℚ
  fiber : ℚ
deriving DecidableEq

/-- The accumulation loop `for meal in meals: total_calories += ...`. -/
def sumMealTotals (meals : List Meal) : NutrientTotals :=
  meals.foldl
    (fun t m =>
      { calories := t.calories + mealField AnalysisData.total_calories m
        protein := t.protein + mealField AnalysisData.total_protein m
        carbs := t.carbs + mealField AnalysisData.total_carbs m
        fat := t.fat + mealField AnalysisData.total_fat m
        fiber := t.fiber + mealField AnalysisData.total_fiber m })
    ⟨0, 0, 0, 0, 0⟩

/-- Upsert of the `(user_id, date)` summary row: the first existing row for
that key is updated in place, otherwise the new row is appended. -/
def upsertSummary (uid : ℕ) (d : ℤ) (row : DailySummaryRow) :
    List DailySummaryRow → List DailySummaryRow
  | [] => [row]
  | s :: rest =>
    if s.user_id == uid && s.date == d then row :: rest
    else s :: upsertSummary uid d row rest

/-- `DashboardService.create_or_update_daily_summary(user_id, target_date)`:
fetch the day's meals, sum nutrients (missing fields contribute 0), count
meals, fetch goals (defaults 2000 kcal / 50 g protein), set the two
90%-threshold achievement flags, and upsert the summary row.  Returns the
updated database together with the summary that was written. -/
def create_or_update_daily_summary (db : DashboardDB) (user_id : ℕ)
    (target_date : ℤ) : DashboardDB × DailySummaryRow :=
  let meals := db.meals.filter
    (fun m => m.user_id == user_id && m.upload_date == target_date)
  let t := sumMealTotals meals
  let g := userGoals (db.users.find? (fun u => u.id == user_id))
  let goal_calories := g.calories.getD 2000
  let goal_protein := g.protein.getD 50
  let row : DailySummaryRow :=
    { user_id := user_id
      date := target_date
      total_calories := t.calories
      total_protein := t.protein
      total_carbs := t.carbs
      total_fat := t.fat
      total_fiber := t.fiber
      meals_count := meals.length
      goal_calories_achieved := decide (t.calories ≥ goal_calories * (9 / 10))
      goal_protein_achieved := decide (t.protein ≥ goal_protein * (9 / 10)) }
  ({ db with summaries := upsertSummary user_id target_date row db.summaries },
   row)

/-- Unfolding the nutrient-summation loop: starting from running totals `t`,
the loop adds the per-meal contributions of each nutrient field. -/
theorem sumMealTotals_foldl (meals : List Meal) (t : NutrientTotals) :
    meals.foldl
      (fun t m =>
        { calories := t.calories + mealField AnalysisData.total_calories m
          protein := t.protein + mealField AnalysisData.total_protein m
          carbs := t.carbs + mealField AnalysisData.total_carbs m
          fat := t.fat + mealField AnalysisData.total_fat m
          fiber := t.fiber + mealField AnalysisData.total_fiber m }) t =
      ⟨t.calories + (meals.map (mealField AnalysisData.total_calories)).sum,
       t.protein + (meals.map (mealField AnalysisData.total_protein)).sum,
       t.carbs + (meals.map (mealField AnalysisData.total_carbs)).sum,
       t.fat + (meals.map (mealField AnalysisData.total_fat)).sum,
       t.fiber + (meals.map (mealField AnalysisData.total_fiber)).sum⟩ := by
  induction meals generalizing t with
  | nil => simp
  | cons m ms ih =>
    simp only [List.foldl_cons, List.map_cons, List.sum_cons, ih]
    congr 1 <;> ring

/-- The summation loop computes, for each nutrient, the sum of the per-meal
contributions. -/
theorem sumMealTotals_eq (meals : List Meal) :
    sumMealTotals meals =
      ⟨(meals.map (mealField AnalysisData.total_calories)).sum,
       (meals.map (mealField AnalysisData.total_protein)).sum,
       (meals.map (mealField AnalysisData.total_carbs)).sum,
       (meals.map (mealField AnalysisData.total_fat)).sum,
       (meals.map (mealField AnalysisData.total_fiber)).sum⟩ := by
  unfold sumMealTotals
  rw [sumMealTotals_foldl]
  simp

/-- C1: recomputing the daily summary yields, for each of the five nutrient
fields, the sum of the per-meal fields (missing fields contributing 0),
`meals_count` equal to the number of that day's meals, and the two goal flags
set exactly when the total reaches 90% of the corresponding goal; in
particular with `goal_calories = 2000` a day totalling 1800 kcal achieves the
calorie goal and a day totalling 1799 kcal does not. -/
theorem c1_daily_summary_totals :
    (∀ (db : DashboardDB) (uid : ℕ) (d : ℤ),
      (create_or_update_daily_summary db uid d).2.total_calories =
        ((db.meals.filter (fun m => m.user_id == uid && m.upload_date == d)).map
          (mealField AnalysisData.total_calories)).sum ∧
      (create_or_update_daily_summary db uid d).2.total_protein =
        ((db.meals.filter (fun m => m.user_id == uid && m.upload_date == d)).map
          (mealField AnalysisData.total_protein)).sum ∧
      (create_or_update_daily_summary db uid d).2.total_carbs =
        ((db.meals.filter (fun m => m.user_id == uid && m.upload_date == d)).map
          (mealField AnalysisData.total_carbs)).sum ∧
      (create_or_update_daily_summary db uid d).2.total_fat =
        ((db.meals.filter (fun m => m.user_id == uid && m.upload_date == d)).map
          (mealField AnalysisData.total_fat)).sum ∧
      (create_or_update_daily_summary db uid d).2.total_fiber =
        ((db.meals.filter (fun m => m.user_id == uid && m.upload_date == d)).map
          (mealField AnalysisData.total_fiber)).sum ∧
      (create_or_update_daily_summary db uid d).2.meals_count =
        (db.meals.filter (fun m => m.user_id == uid && m.upload_date == d)).length ∧
      ((create_or_update_daily_summary db uid d).2.goal_calories_achieved = true ↔
        (create_or_update_daily_summary db uid d).2.total_calories ≥
          (userGoals (db.users.find? (fun u => u.id == uid))).calories.getD 2000 * (9 / 10)) ∧
      ((create_or_update_daily_summary db uid d).2.goal_protein_achieved = true ↔
        (create_or_update_daily_summary db uid d).2.total_protein ≥
          (userGoals (db.users.find? (fun u => u.id == uid))).protein.getD 50 * (9 / 10))) ∧
    (create_or_update_daily_summary
      ⟨[⟨1, 0, some ⟨some 1800, none, none, none, none⟩⟩],
       [⟨1, some ⟨some 2000, some 50⟩⟩], []⟩ 1 0).2.goal_calories_achieved = true ∧
    (create_or_update_daily_summary
      ⟨[⟨1, 0, some ⟨some 1799, none, none, none, none⟩⟩],
       [⟨1, some ⟨some 2000, some 50⟩⟩], []⟩ 1 0).2.goal_calories_achieved = false := by
  refine ⟨fun db uid d => ?_, ?_, ?_⟩
  · simp [create_or_update_daily_summary, sumMealTotals_eq, decide_eq_true_eq]
  · simp only [create_or_update_daily_summary, sumMealTotals_eq, mealField,
      userGoals, List.filter, List.find?, List.map]
    norm_num
  · simp only [create_or_update_daily_summary, sumMealTotals_eq, mealField,
      userGoals, List.filter, List.find?, List.map]
    norm_num

/-- If the summary row being upserted carries exactly the key it is upserted
under, upserting it twice is the same as upserting it once. -/
theorem upsertSummary_idem (uid : ℕ) (d : ℤ) (row : DailySummaryRow)
    (h1 : row.user_id = uid) (h2 : row.date = d) :
    ∀ s, upsertSummary uid d row (upsertSummary uid d row s) =
      upsertSummary uid d row s := by
  intro s
  induction s with
  | nil => simp [upsertSummary, h1, h2]
  | cons a rest ih =>
    by_cases h : (a.user_id == uid && a.date == d) = true
    · simp [upsertSummary, h, h1, h2]
    · simp [upsertSummary, h, ih]

/-- C2: recomputing the daily summary is idempotent — with no change to the
meals or goals in between, the second recomputation returns the same summary
fields and leaves the database exactly as the first left it. -/
theorem c2_recompute_idempotent (db : DashboardDB) (uid : ℕ) (d : ℤ) :
    (create_or_update_daily_summary
        (create_or_update_daily_summary db uid d).1 uid d).2 =
      (create_or_update_daily_summary db uid d).2 ∧
    (create_or_update_daily_summary
        (create_or_update_daily_summary db uid d).1 uid d).1 =
      (create_or_update_daily_summary db uid d).1 := by
  constructor
  · rfl
  · show DashboardDB.mk _ _ _ = DashboardDB.mk _ _ _
    congr 1
    exact upsertSummary_idem uid d _ rfl rfl _

/-! ## Meal reminders
Embeds `NotificationService.check_and_send_meal_reminders`
(`app/services/notification_service.py`, lines 268-334).  Timestamps are in
hours, so `timedelta(hours=5)` is `5`. -/

/-- The quiet-hours test of the reminder loop, line 299 of the source:
`if quiet_start <= current_hour or current_hour < quiet_end: continue`. -/
def quietHoursSkip (qs qe h : ℕ) : Bool :=
  decide (qs ≤ h) || decide (h < qe)

/-- Comparison definition following the spec's words: membership of hour `h`
in the quiet-hours window running from `qs` to `qe` (end exclusive), wrapping
past midnight when `qe < qs`. -/
def specQuietWindowMember (qs qe h : ℕ) : Bool :=
  if qs ≤ qe then decide (qs ≤ h) && decide (h < qe)
  else decide (qs ≤ h) || decide (h < qe)

/-- The `notification_preferences` JSON dict on a user row. -/
structure NotificationPrefs where
  whatsapp_enabled : Option Bool
  quiet_hours_start : Option ℕ
  quiet_hours_end : Option ℕ
deriving DecidableEq

/-- A user row, restricted to the columns the reminder check reads. -/
structure NotifUser where
  id : ℕ
  phone_verified : Bool
  phone_number : Option String
  last_meal_time : Option ℚ
  notification_preferences : Option NotificationPrefs
deriving DecidableEq

/-- A `NotificationLog` row (audit record of one delivery attempt). -/
structure NotificationLogRow where
  user_id : ℕ
  notification_type : String
  created_at : ℚ
deriving DecidableEq

/-- `prefs = user.notification_preferences or {}`. -/
def prefsOf (u : NotifUser) : NotificationPrefs :=
  u.notification_preferences.getD ⟨none, none, none⟩

/-- The eligibility filter of the user query: verified phone, phone number
present, and either no meal ever logged or the last meal more than 5 hours
ago. -/
def needsMealReminder (now : ℚ) (u : NotifUser) : Bool :=
  u.phone_verified && u.phone_number.isSome &&
    (match u.last_meal_time with
     | none => true
     | some t => decide (t < now - 5))

/-- The recency-dedup query: a `meal_reminder` log row for this user strictly
newer than `now - 2` hours. -/
def hasRecentMealReminder (logs : List NotificationLogRow) (uid : ℕ)
    (now : ℚ) : Bool :=
  logs.any (fun l =>
    l.user_id == uid && l.notification_type == "meal_reminder" &&
      decide (now - 2 < l.created_at))

/-- Whole per-user decision of `check_and_send_meal_reminders`: the user
passes the eligibility query, WhatsApp is enabled (default on), the current
hour is not skipped as quiet hours (defaults 22 and 7), and no reminder was
logged in the last 2 hours. -/
def sendsMealReminder (now : ℚ) (hour : ℕ) (logs : List NotificationLogRow)
    (u : NotifUser) : Bool :=
  needsMealReminder now u &&
    (prefsOf u).whatsapp_enabled.getD true &&
    !quietHoursSkip ((prefsOf u).quiet_hours_start.getD 22)
      ((prefsOf u).quiet_hours_end.getD 7) hour &&
    !hasRecentMealReminder logs u.id now

/-- C3 counterexample: with the non-wrapping configuration
`quiet_hours_start = 9`, `quiet_hours_end = 17`, a check at hour 20 is
suppressed by the code although hour 20 does not fall within the configured
quiet-hours window — so suppression is not equivalent to window
membership for every configuration. -/
theorem c3_quiet_hours_counterexample :
    quietHoursSkip 9 17 20 = true ∧ specQuietWindowMember 9 17 20 = false := by
  constructor <;> decide

/-- C3 (amended): the code suppresses a reminder at hour `h` exactly when
`quiet_hours_start ≤ h` or `h < quiet_hours_end`; for every configuration
whose window wraps midnight (`quiet_hours_end < quiet_hours_start`) this
coincides with membership in the quiet-hours window, and in particular with
start 22 and end 7 the checks at hours 23 and 6 are suppressed while the
checks at hours 8 and 21 are not. -/
theorem c3_quiet_hours_wraparound :
    (∀ qs qe h : ℕ, qe < qs →
      quietHoursSkip qs qe h = specQuietWindowMember qs qe h) ∧
    quietHoursSkip 22 7 23 = true ∧ quietHoursSkip 22 7 6 = true ∧
    quietHoursSkip 22 7 8 = false ∧ quietHoursSkip 22 7 21 = false := by
  refine ⟨fun qs qe h hw => ?_, by decide, by decide, by decide, by decide⟩
  rw [specQuietWindowMember, if_neg (by omega)]
  rfl

/-- C3 witness: the amended equivalence instantiated at the wrapping
configuration start 22, end 7 and hour 5. -/
theorem c3_quiet_hours_wraparound_witness :
    (7 : ℕ) < 22 ∧ quietHoursSkip 22 7 5 = specQuietWindowMember 22 7 5 :=
  ⟨by decide, c3_quiet_hours_wraparound.1 22 7 5 (by decide)⟩

/-- C4: a meal reminder is only sent to a user whose last meal is more than
5 hours old (or who never logged a meal); any `meal_reminder` log entry newer
than 2 hours suppresses it; concretely, for an otherwise fully eligible
verified user at `now = 100`, a log entry at `now - 1` suppresses the
reminder while a log entry at `now - 3` does not. -/
theorem c4_meal_reminder_dedup :
    (∀ (now : ℚ) (hour : ℕ) (logs : List NotificationLogRow) (u : NotifUser),
      sendsMealReminder now hour logs u = true →
        u.last_meal_time = none ∨
          ∃ t, u.last_meal_time = some t ∧ 5 < now - t) ∧
    (∀ (now : ℚ) (hour : ℕ) (logs : List NotificationLogRow) (u : NotifUser)
      (l : NotificationLogRow), l ∈ logs → l.user_id = u.id →
      l.notification_type = "meal_reminder" → now - 2 < l.created_at →
        sendsMealReminder now hour logs u = false) ∧
    sendsMealReminder 100 12 [⟨1, "meal_reminder", 99⟩]
      ⟨1, true, some "15550100", some 90, none⟩ = false ∧
    sendsMealReminder 100 12 [⟨1, "meal_reminder", 97⟩]
      ⟨1, true, some "15550100", some 90, none⟩ = true := by
  refine ⟨?_, ?_, ?_, ?_⟩
  · intro now hour logs u h
    simp only [sendsMealReminder, needsMealReminder, Bool.and_eq_true] at h
    obtain ⟨⟨⟨⟨_, hlast⟩, _⟩, _⟩, _⟩ := h
    cases hul : u.last_meal_time with
    | none => exact Or.inl rfl
    | some t =>
      rw [hul] at hlast
      simp only [decide_eq_true_eq] at hlast
      exact Or.inr ⟨t, rfl, by linarith⟩
  · intro now hour logs u l hl hu ht hrec
    have hrecent : hasRecentMealReminder logs u.id now = true := by
      refine List.any_eq_true.mpr ⟨l, hl, ?_⟩
      simp [hu, ht, hrec]
    simp [sendsMealReminder, hrecent]
  · have hrecent : hasRecentMealReminder [⟨1, "meal_reminder", 99⟩] 1 100 = true := by
      refine List.any_eq_true.mpr ⟨⟨1, "meal_reminder", 99⟩, by simp, ?_⟩
      norm_num
    simp [sendsMealReminder, hrecent]
  · have hrecent : hasRecentMealReminder [⟨1, "meal_reminder", 97⟩] 1 100 = false := by
      simp only [hasRecentMealReminder, List.any_cons, List.any_nil, Bool.or_false]
      norm_num
    simp only [sendsMealReminder, hrecent, Bool.not_false, Bool.and_true,
      needsMealReminder, prefsOf, quietHoursSkip]
    norm_num

/-- C4 witness: the dedup suppression applied to a concrete verified user
with a `meal_reminder` log entry one hour old. -/
theorem c4_meal_reminder_dedup_witness :
    sendsMealReminder 100 14 [⟨1, "meal_reminder", 99⟩]
      ⟨1, true, some "15550100", some 90, none⟩ = false :=
  c4_meal_reminder_dedup.2.1 100 14 [⟨1, "meal_reminder", 99⟩]
    ⟨1, true, some "15550100", some 90, none⟩ ⟨1, "meal_reminder", 99⟩
    (by simp) rfl rfl (by norm_num)

/-! ## Recurring smart notifications
Embeds `SmartNotificationService.mark_notification_sent` (lines 374-397) and
`SmartNotificationService._create_recurring_notification` (lines 399-423) of
`app/services/smart_notification_service.py`.  Timestamps are in days, so
`timedelta(days=1)` is `1`. -/

/-- The `recurrence_pattern` JSON dict (only its `type` key is read). -/
structure RecurrencePattern where
  rtype : Option String
deriving DecidableEq

/-- A `SmartNotification` row. -/
structure SmartNotification where
  id : ℕ
  user_id : ℕ
  notification_type : String
  title : String
  message : String
  scheduled_time : ℚ
  is_sent : Bool
  sent_at : Option ℚ
  is_recurring : Bool
  recurrence_pattern : Option RecurrencePattern
  personalization_data : Option String
deriving DecidableEq

/-- The `smart_notifications` table, with the id the next insert receives. -/
structure SmartNotificationDB where
  rows : List SmartNotification
  next_id : ℕ
deriving DecidableEq

/-- `_create_recurring_notification(original)`: when the recurrence type is
`daily`, insert a fresh pending copy scheduled one day after the original's
`scheduled_time`; otherwise do nothing. -/
def createRecurringNotification (db : SmartNotificationDB)
    (orig : SmartNotification) : SmartNotificationDB :=
  match orig.recurrence_pattern with
  | none => db
  | some rp =>
    if rp.rtype == some "daily" then
      { rows := db.rows ++
          [{ id := db.next_id
             user_id := orig.user_id
             notification_type := orig.notification_type
             title := orig.title
             message := orig.message
             scheduled_time := orig.scheduled_time + 1
             is_sent := false
             sent_at := none
             is_recurring := true
             recurrence_pattern := orig.recurrence_pattern
             personalization_data := orig.personalization_data }]
        next_id := db.next_id + 1 }
    else db

/-- In-place update of the first row with the given id: set `is_sent` and
`sent_at`, returning the updated row as well. -/
def updateSentRow (now : ℚ) (nid : ℕ) :
    List SmartNotification → Option SmartNotification × List SmartNotification
  | [] => (none, [])
  | n :: rest =>
    if n.id == nid then
      (some { n with is_sent := true, sent_at := some now },
       { n with is_sent := true, sent_at := some now } :: rest)
    else
      let r := updateSentRow now nid rest
      (r.1, n :: r.2)

/-- `mark_notification_sent(notification_id)`: look the row up by id; if
found, mark it sent and — when it is recurring with a recurrence pattern —
chain the next occurrence; return whether a row was found.  The source has
no guard on `is_sent`, so an already-sent row is processed again. -/
def markNotificationSent (now : ℚ) (nid : ℕ) (db : SmartNotificationDB) :
    Bool × SmartNotificationDB :=
  match updateSentRow now nid db.rows with
  | (none, _) => (false, db)
  | (some updated, rows') =>
    let db' : SmartNotificationDB := { db with rows := rows' }
    if updated.is_recurring && updated.recurrence_pattern.isSome then
      (true, createRecurringNotification db' updated)
    else (true, db')

/-- C5: evaluation of `mark_notification_sent` at the failing input.  A
single call on a pending recurring daily notification scheduled at day 10
chains exactly one new pending occurrence at day 11 and marks the original
sent — but the source never checks `is_sent`, so a second call on the same
id chains again, leaving two pending occurrences at day 11. -/
theorem c5_mark_sent_double_chains :
    (markNotificationSent 10 1
      ⟨[⟨1, 1, "hydration_reminder", "Hydration", "Drink water", 10, false,
         none, true, some ⟨some "daily"⟩, none⟩], 2⟩).1 = true ∧
    ((markNotificationSent 10 1
      ⟨[⟨1, 1, "hydration_reminder", "Hydration", "Drink water", 10, false,
         none, true, some ⟨some "daily"⟩, none⟩], 2⟩).2.rows.filter
        (fun n => !n.is_sent)).map (fun n => n.scheduled_time) = [11] ∧
    ((markNotificationSent 10 1
      ⟨[⟨1, 1, "hydration_reminder", "Hydration", "Drink water", 10, false,
         none, true, some ⟨some "daily"⟩, none⟩], 2⟩).2.rows.find?
        (fun n => n.id == 1)).map (fun n => n.is_sent) = some true ∧
    ((markNotificationSent 10 1
      (markNotificationSent 10 1
        ⟨[⟨1, 1, "hydration_reminder", "Hydration", "Drink water", 10, false,
           none, true, some ⟨some "daily"⟩, none⟩], 2⟩).2).2.rows.filter
        (fun n => !n.is_sent)).map (fun n => n.scheduled_time) = [11, 11] := by
  norm_num [markNotificationSent, updateSentRow, createRecurringNotification,
    List.filter, List.find?]

/-! ## Health monitoring
Embeds parts of `HealthMonitoringService`
(`app/services/health_monitoring_service.py`): `_analyze_calorie_trend`
(lines 727-754), `_assess_health_risks` (lines 300-368),
`_monitor_eating_patterns` (lines 172-236), `_create_alert` (lines 572-611),
`get_active_alerts` (lines 471-505), `dismiss_alert` (lines 507-527) and
`mark_alert_read` (lines 529-549).  Timestamps are in days. -/

/-- A `DailySummary` row as the health monitor reads it. -/
structure HSummary where
  total_calories : ℚ
  total_protein : ℚ
  total_carbs : ℚ
  total_fat : ℚ
deriving DecidableEq

/-- `statistics.mean` (callers only apply it to non-empty lists). -/
def pymean (l : List ℚ) : ℚ := l.sum / l.length

/-- `_analyze_calorie_trend(daily_summaries)`, reduced to the `trend` field
of its result: `none` models the empty dict returned on insufficient data;
the most recent summaries come first, zero-calorie days are dropped, the
mean of the first three values is compared against the mean of the rest with
a 200 kcal dead band. -/
def analyzeCalorieTrend (ds : List HSummary) : Option String :=
  if ds.length < 3 then none
  else
    let calories := (ds.map HSummary.total_calories).filter (fun c => decide (0 < c))
    if calories.isEmpty then none
    else
      let avg := pymean calories
      let recentAvg := if 3 ≤ calories.length then pymean (calories.take 3) else avg
      let olderAvg := if 3 < calories.length then pymean (calories.drop 3) else avg
      some (if recentAvg > olderAvg + 200 then "increasing"
            else if recentAvg < olderAvg - 200 then "decreasing"
            else "stable")

/-- Comparison definition following the spec's words for C6: classification
of the raw calorie-value sequence (most recent first), comparing the mean of
the three most recent values against the mean of all remaining older
values with the 200 kcal dead band. -/
def specRawCalorieTrend (cals : List ℚ) : String :=
  if pymean (cals.take 3) > pymean (cals.drop 3) + 200 then "increasing"
  else if pymean (cals.take 3) < pymean (cals.drop 3) - 200 then "decreasing"
  else "stable"

/-- The identifying fields of an alert emitted by a monitoring rule. -/
structure AlertReq where
  alert_type : String
  severity : String
  title : String
deriving DecidableEq

/-- `_assess_health_risks(user_id, recent_meals, daily_summaries)`, as the
list of alerts it creates: the diabetes-pattern rule (more than 300 g carbs
on at least 5 days), the cardiovascular rule (over 2500 kcal and over 80 g
fat co-occurring on at least 4 days) and the deficiency rule (under
1200 kcal on at least 3 days), in source order. -/
def assessHealthRisks (ds : List HSummary) : List AlertReq :=
  if ds.isEmpty then []
  else
    (if 5 ≤ (ds.filter (fun s => decide (300 < s.total_carbs))).length then
      [⟨"health_risk", "high", "High Carbohydrate Intake Risk"⟩] else []) ++
    (if 4 ≤ (ds.filter (fun s =>
        decide (2500 < s.total_calories) && decide (80 < s.total_fat))).length then
      [⟨"health_risk", "high", "Cardiovascular Risk Pattern"⟩] else []) ++
    (if 3 ≤ (ds.filter (fun s => decide (s.total_calories < 1200))).length then
      [⟨"health_risk", "high", "Potential Nutritional Deficiency Risk"⟩] else [])

/-- A `Meal` row as `_monitor_eating_patterns` reads it: its calendar date
and the hour of its `upload_time` (`none` when `upload_time` is null). -/
structure PMeal where
  upload_date : ℤ
  upload_hour : Option ℕ
deriving DecidableEq

/-- The distinct meal dates (the keys of the `meals_by_date` grouping). -/
def mealDates (ms : List PMeal) : List ℤ := (ms.map PMeal.upload_date).dedup

/-- Late-dinner test for one date group: some meal at hour ≥ 19 whose hour is
also ≥ 21 (the source first filters to hour ≥ 19, then tests hour ≥ 21). -/
def isLateDinnerDay (ms : List PMeal) (d : ℤ) : Bool :=
  ((ms.filter (fun m => m.upload_date == d)).filter
    (fun m => m.upload_hour.any (fun h => decide (19 ≤ h)))).any
    (fun m => m.upload_hour.any (fun h => decide (21 ≤ h)))

/-- Breakfast-skipping test for one date group: no meal with a non-null
`upload_time` whose hour is at most 11. -/
def skipsBreakfastDay (ms : List PMeal) (d : ℤ) : Bool :=
  ((ms.filter (fun m => m.upload_date == d)).filter
    (fun m => m.upload_hour.any (fun h => decide (h ≤ 11)))).isEmpty

/-- `_monitor_eating_patterns(user_id, recent_meals)`: nothing is emitted for
fewer than 5 recent meals; otherwise the meals are grouped by calendar date
and a late-dinner alert and/or a breakfast-skipping alert is emitted when at
least 3 of the grouped days qualify. -/
def monitorEatingPatterns (ms : List PMeal) : List AlertReq :=
  if ms.length < 5 then []
  else
    (if 3 ≤ (mealDates ms).countP (isLateDinnerDay ms) then
      [⟨"pattern_concern", "medium", "Late Dinner Pattern Detected"⟩] else []) ++
    (if 3 ≤ (mealDates ms).countP (skipsBreakfastDay ms) then
      [⟨"pattern_concern", "medium", "Breakfast Skipping Pattern"⟩] else [])

/-- Comparison definition following the spec's words for C9: the number of
distinct meal dates on which no meal was logged strictly before 11:00. -/
def specSkippedBreakfastDays (ms : List PMeal) : ℕ :=
  (mealDates ms).countP (fun d =>
    ((ms.filter (fun m => m.upload_date == d)).filter
      (fun m => m.upload_hour.any (fun h => decide (h < 11)))).isEmpty)

/-- A `HealthAlert` row. -/
structure HealthAlert where
  id : ℕ
  user_id : ℕ
  alert_type : String
  severity : String
  title : String
  message : String
  is_read : Bool
  is_dismissed : Bool
  triggered_at : ℚ
  expires_at : Option ℚ
deriving DecidableEq

/-- The expiry computed by `_create_alert` from the alert type:
`nutrition_gap`/`pattern_concern` 7 days, `goal_deviation` 3 days,
`health_risk` 14 days, anything else no expiry. -/
def alertExpiry (now : ℚ) (alert_type : String) : Option ℚ :=
  if alert_type == "nutrition_gap" || alert_type == "pattern_concern" then
    some (now + 7)
  else if alert_type == "goal_deviation" then some (now + 3)
  else if alert_type == "health_risk" then some (now + 14)
  else none

/-- `_create_alert(...)`: insert a fresh un-read, un-dismissed alert row with
the type-dependent expiry. -/
def createAlert (now : ℚ) (db : List HealthAlert) (nid uid : ℕ)
    (atype sev title msg : String) : List HealthAlert :=
  db ++ [{ id := nid, user_id := uid, alert_type := atype, severity := sev,
           title := title, message := msg, is_read := false,
           is_dismissed := false, triggered_at := now,
           expires_at := alertExpiry now atype }]

/-- The active-alert condition the listing query spells out: not dismissed,
and either no expiry or an expiry strictly in the future.  At run time the
query never executes successfully (see `getActiveAlerts`). -/
def alertIsActive (now : ℚ) (a : HealthAlert) : Bool :=
  !a.is_dismissed &&
    (match a.expires_at with
     | none => true
     | some e => decide (now < e))

/-- `get_active_alerts(user_id)`: the source builds its query with `or_`, a
name this module never imports (its sqlalchemy import brings in only `desc`,
`and_` and `func`), so every call raises `NameError` inside the `try` and
the `except` handler returns the empty list — the function returns `[]` on
all inputs. -/
def getActiveAlerts (now : ℚ) (uid : ℕ) (db : List HealthAlert) :
    List HealthAlert :=
  []

/-- `dismiss_alert(user_id, alert_id)`: find the first alert with this id
belonging to this user; if present set `is_dismissed` and return `True`,
else return `False` leaving the table unchanged. -/
def dismissAlert (uid aid : ℕ) : List HealthAlert → Bool × List HealthAlert
  | [] => (false, [])
  | a :: rest =>
    if a.id == aid && a.user_id == uid then
      (true, { a with is_dismissed := true } :: rest)
    else
      let r := dismissAlert uid aid rest
      (r.1, a :: r.2)

/-- `mark_alert_read(user_id, alert_id)`: same lookup as `dismiss_alert`,
setting `is_read` instead. -/
def markAlertRead (uid aid : ℕ) : List HealthAlert → Bool × List HealthAlert
  | [] => (false, [])
  | a :: rest =>
    if a.id == aid && a.user_id == uid then
      (true, { a with is_read := true } :: rest)
    else
      let r := markAlertRead uid aid rest
      (r.1, a :: r.2)

/-- C6 counterexample: the classification is not computed on the raw
daily-summary calorie sequence.  On the five-day sequence
`[0, 2600, 2600, 2600, 2000]` (most recent first) the code first drops the
zero-calorie day and classifies `increasing` (recent mean 2600 against older
mean 2000), while the claimed most-recent-3-versus-remaining formula on the
raw sequence compares mean `5200/3` against mean `2300` and classifies
`decreasing`. -/
theorem c6_calorie_trend_counterexample :
    analyzeCalorieTrend
      [⟨0, 0, 0, 0⟩, ⟨2600, 0, 0, 0⟩, ⟨2600, 0, 0, 0⟩, ⟨2600, 0, 0, 0⟩,
       ⟨2000, 0, 0, 0⟩] = some "increasing" ∧
    specRawCalorieTrend
      ([⟨0, 0, 0, 0⟩, ⟨2600, 0, 0, 0⟩, ⟨2600, 0, 0, 0⟩, ⟨2600, 0, 0, 0⟩,
        (⟨2000, 0, 0, 0⟩ : HSummary)].map HSummary.total_calories) =
      "decreasing" := by
  constructor
  · norm_num [analyzeCalorieTrend, pymean, List.filter]
  · norm_num [specRawCalorieTrend, pymean]

/-- C6 (amended): the trend is classified over the positive calorie values
of the summaries (non-positive daily totals are dropped first).  For at
least 3 summaries with more than 3 positive calorie values, the trend is
`increasing` exactly when the mean of the first 3 positive values exceeds
the mean of the remaining positive values by more than 200 kcal,
`decreasing` exactly when it is more than 200 kcal below it, and `stable`
otherwise; concretely, recent mean 2600 against older 2000 is `increasing`,
2000 against 2600 is `decreasing`, and 2100 against 2150 is `stable`. -/
theorem c6_calorie_trend :
    (∀ ds : List HSummary, 3 ≤ ds.length →
      3 < ((ds.map HSummary.total_calories).filter
        (fun c => decide (0 < c))).length →
      (analyzeCalorieTrend ds = some "increasing" ↔
        pymean (((ds.map HSummary.total_calories).filter
            (fun c => decide (0 < c))).take 3) >
          pymean (((ds.map HSummary.total_calories).filter
            (fun c => decide (0 < c))).drop 3) + 200) ∧
      (analyzeCalorieTrend ds = some "decreasing" ↔
        pymean (((ds.map HSummary.total_calories).filter
            (fun c => decide (0 < c))).take 3) <
          pymean (((ds.map HSummary.total_calories).filter
            (fun c => decide (0 < c))).drop 3) - 200) ∧
      (analyzeCalorieTrend ds = some "stable" ↔
        (pymean (((ds.map HSummary.total_calories).filter
            (fun c => decide (0 < c))).drop 3) - 200 ≤
          pymean (((ds.map HSummary.total_calories).filter
            (fun c => decide (0 < c))).take 3) ∧
         pymean (((ds.map HSummary.total_calories).filter
            (fun c => decide (0 < c))).take 3) ≤
          pymean (((ds.map HSummary.total_calories).filter
            (fun c => decide (0 < c))).drop 3) + 200))) ∧
    analyzeCalorieTrend
      [⟨2600, 0, 0, 0⟩, ⟨2600, 0, 0, 0⟩, ⟨2600, 0, 0, 0⟩, ⟨2000, 0, 0, 0⟩] =
      some "increasing" ∧
    analyzeCalorieTrend
      [⟨2000, 0, 0, 0⟩, ⟨2000, 0, 0, 0⟩, ⟨2000, 0, 0, 0⟩, ⟨2600, 0, 0, 0⟩] =
      some "decreasing" ∧
    analyzeCalorieTrend
      [⟨2100, 0, 0, 0⟩, ⟨2100, 0, 0, 0⟩, ⟨2100, 0, 0, 0⟩, ⟨2150, 0, 0, 0⟩] =
      some "stable" := by
  refine ⟨fun ds h1 h2 => ?_, ?_, ?_, ?_⟩
  · have hnil : ((ds.map HSummary.total_calories).filter
        (fun c => decide (0 < c))).isEmpty = false := by
      rw [List.isEmpty_eq_false]
      apply List.ne_nil_of_length_pos
      omega
    unfold analyzeCalorieTrend
    rw [if_neg (by omega)]
    simp only [hnil, Bool.false_eq_true, if_false,
      if_pos (show 3 ≤ ((ds.map HSummary.total_calories).filter
        (fun c => decide (0 < c))).length by omega),
      if_pos h2]
    set r := pymean (((ds.map HSummary.total_calories).filter
      (fun c => decide (0 < c))).take 3) with hr
    set o := pymean (((ds.map HSummary.total_calories).filter
      (fun c => decide (0 < c))).drop 3) with ho
    by_cases hA : r > o + 200
    · rw [if_pos hA]
      refine ⟨⟨fun _ => hA, fun _ => rfl⟩, ?_, ?_⟩
      · constructor
        · intro h
          exact absurd (Option.some_inj.mp h) (by decide)
        · intro h
          linarith
      · constructor
        · intro h
          exact absurd (Option.some_inj.mp h) (by decide)
        · intro h
          linarith
    · rw [if_neg hA]
      by_cases hB : r < o - 200
      · rw [if_pos hB]
        refine ⟨?_, ⟨fun _ => hB, fun _ => rfl⟩, ?_⟩
        · constructor
          · intro h
            exact absurd (Option.some_inj.mp h) (by decide)
          · intro h
            linarith
        · constructor
          · intro h
            exact absurd (Option.some_inj.mp h) (by decide)
          · intro h
            linarith
      · rw [if_neg hB]
        refine ⟨?_, ?_, fun _ => ⟨by linarith, by linarith⟩, fun _ => rfl⟩
        · constructor
          · intro h
            exact absurd (Option.some_inj.mp h) (by decide)
          · intro h
            linarith
        · constructor
          · intro h
            exact absurd (Option.some_inj.mp h) (by decide)
          · intro h
            linarith
  · norm_num [analyzeCalorieTrend, pymean, List.filter]
  · norm_num [analyzeCalorieTrend, pymean, List.filter]
  · norm_num [analyzeCalorieTrend, pymean, List.filter]

/-- C6 witness: the amended characterization instantiated at the concrete
increasing example (four positive calorie values: three recent days at
2600 kcal and one older day at 2000 kcal). -/
theorem c6_calorie_trend_witness :
    analyzeCalorieTrend
      [⟨2600, 0, 0, 0⟩, ⟨2600, 0, 0, 0⟩, ⟨2600, 0, 0, 0⟩, ⟨2000, 0, 0, 0⟩] =
      some "increasing" ↔
    pymean ((([⟨2600, 0, 0, 0⟩, ⟨2600, 0, 0, 0⟩, ⟨2600, 0, 0, 0⟩,
        (⟨2000, 0, 0, 0⟩ : HSummary)].map HSummary.total_calories).filter
        (fun c => decide (0 < c))).take 3) >
      pymean ((([⟨2600, 0, 0, 0⟩, ⟨2600, 0, 0, 0⟩, ⟨2600, 0, 0, 0⟩,
        (⟨2000, 0, 0, 0⟩ : HSummary)].map HSummary.total_calories).filter
        (fun c => decide (0 < c))).drop 3) + 200 :=
  (c6_calorie_trend.1
    [⟨2600, 0, 0, 0⟩, ⟨2600, 0, 0, 0⟩, ⟨2600, 0, 0, 0⟩, ⟨2000, 0, 0, 0⟩]
    (by norm_num) (by decide)).1

/-- Counting matches in an optionally-emitted singleton alert list: zero when
the predicate rejects the alert. -/
theorem countP_if_singleton (p : AlertReq → Bool) (c : Prop) [Decidable c]
    (x : AlertReq) (hx : p x = false) :
    List.countP p (if c then [x] else []) = 0 := by
  split_ifs <;> simp [List.countP_cons, hx]

/-- Counting matches in an optionally-emitted singleton alert list: `1` when
the predicate accepts the alert and the alert is emitted, else `0`. -/
theorem countP_if_singleton_pos (p : AlertReq → Bool) (c : Prop) [Decidable c]
    (x : AlertReq) (hx : p x = true) :
    List.countP p (if c then [x] else []) = if c then 1 else 0 := by
  split_ifs <;> simp [List.countP_cons, hx]

/-- C7: the health-risk assessment emits the high-severity `health_risk`
alert `High Carbohydrate Intake Risk` exactly when the number of summarized
days with more than 300 g of carbohydrates is at least 5 — and then emits
exactly one such alert; concretely a window with exactly 2 such days yields
none and a window with exactly 5 such days yields one. -/
theorem c7_high_carb_risk :
    (∀ ds : List HSummary,
      (assessHealthRisks ds).countP
        (fun a => a.title == "High Carbohydrate Intake Risk" &&
          a.alert_type == "health_risk" && a.severity == "high") =
      if 5 ≤ ds.countP (fun s => decide (300 < s.total_carbs)) then 1 else 0) ∧
    (assessHealthRisks
      [⟨2000, 50, 310, 60⟩, ⟨2000, 50, 320, 60⟩, ⟨2000, 50, 100, 60⟩,
       ⟨2000, 50, 150, 60⟩, ⟨2000, 50, 200, 60⟩]).countP
      (fun a => a.title == "High Carbohydrate Intake Risk") = 0 ∧
    (assessHealthRisks
      [⟨2000, 50, 310, 60⟩, ⟨2000, 50, 320, 60⟩, ⟨2000, 50, 330, 60⟩,
       ⟨2000, 50, 340, 60⟩, ⟨2000, 50, 350, 60⟩]).countP
      (fun a => a.title == "High Carbohydrate Intake Risk") = 1 := by
  refine ⟨fun ds => ?_, by decide, by decide⟩
  unfold assessHealthRisks
  by_cases hds : ds.isEmpty
  · have : ds = [] := List.isEmpty_iff.mp hds
    subst this
    simp
  · rw [if_neg hds, List.countP_append, List.countP_append,
      countP_if_singleton_pos _ _ _ (by decide),
      countP_if_singleton _ _ _ (by decide),
      countP_if_singleton _ _ _ (by decide),
      List.countP_eq_length_filter]
    omega

/-- C9 counterexample: the eating-pattern monitor does not emit the
breakfast-skipping alert as soon as 3 distinct days have no meal before
11:00.  Five meals all at 11:30 (hour 11) on 3 distinct days give 3 days
with no meal strictly before 11:00, yet no alert is emitted because the
source counts a meal at hour 11 as breakfast; and three meals at noon on 3
distinct days also give 3 such days, yet nothing is emitted because the
monitor requires at least 5 recent meals. -/
theorem c9_breakfast_skipping_counterexample :
    specSkippedBreakfastDays
      [⟨0, some 11⟩, ⟨0, some 11⟩, ⟨1, some 11⟩, ⟨1, some 11⟩, ⟨2, some 11⟩] = 3 ∧
    (monitorEatingPatterns
      [⟨0, some 11⟩, ⟨0, some 11⟩, ⟨1, some 11⟩, ⟨1, some 11⟩, ⟨2, some 11⟩]).countP
      (fun a => a.title == "Breakfast Skipping Pattern") = 0 ∧
    specSkippedBreakfastDays [⟨0, some 12⟩, ⟨1, some 12⟩, ⟨2, some 12⟩] = 3 ∧
    monitorEatingPatterns [⟨0, some 12⟩, ⟨1, some 12⟩, ⟨2, some 12⟩] = [] := by
  refine ⟨by decide, by decide, by decide, by decide⟩

/-- C9 (amended): given at least 5 recent meals, the monitor emits exactly
one medium-severity `pattern_concern` breakfast-skipping alert when at least
3 of the distinct meal dates have no meal logged at or before hour 11
(i.e. before noon), and no such alert otherwise; with fewer than 5 meals
nothing is emitted. -/
theorem c9_breakfast_skipping :
    (∀ ms : List PMeal,
      (monitorEatingPatterns ms).countP
        (fun a => a.title == "Breakfast Skipping Pattern") =
      if 5 ≤ ms.length ∧ 3 ≤ (mealDates ms).countP (skipsBreakfastDay ms)
      then 1 else 0) ∧
    (∀ ms : List PMeal,
      (monitorEatingPatterns ms).countP
        (fun a => a.title == "Breakfast Skipping Pattern" &&
          a.alert_type == "pattern_concern" && a.severity == "medium") =
      if 5 ≤ ms.length ∧ 3 ≤ (mealDates ms).countP (skipsBreakfastDay ms)
      then 1 else 0) := by
  constructor
  · intro ms
    unfold monitorEatingPatterns
    by_cases hlen : ms.length < 5
    · rw [if_pos hlen, if_neg (fun h => by omega)]
      simp
    · rw [if_neg hlen, List.countP_append,
        countP_if_singleton _ _ _ (by decide),
        countP_if_singleton_pos _ _ _ (by decide)]
      by_cases h3 : 3 ≤ (mealDates ms).countP (skipsBreakfastDay ms)
      · rw [if_pos h3, if_pos ⟨by omega, h3⟩]
      · rw [if_neg h3, if_neg (fun h => h3 h.2)]
  · intro ms
    unfold monitorEatingPatterns
    by_cases hlen : ms.length < 5
    · rw [if_pos hlen, if_neg (fun h => by omega)]
      simp
    · rw [if_neg hlen, List.countP_append,
        countP_if_singleton _ _ _ (by decide),
        countP_if_singleton_pos _ _ _ (by decide)]
      by_cases h3 : 3 ≤ (mealDates ms).countP (skipsBreakfastDay ms)
      · rw [if_pos h3, if_pos ⟨by omega, h3⟩]
      · rw [if_neg h3, if_neg (fun h => h3 h.2)]

/-- C8 counterexample: the listing does not return the user's active
alerts.  A table holding a single alert of user 1 that is neither dismissed
nor expired yields an empty listing, because `get_active_alerts` always
raises `NameError` (its query uses the never-imported `or_`) and the
exception handler returns the empty list. -/
theorem c8_active_alerts_counterexample :
    getActiveAlerts 20 1
      [⟨1, 1, "health_risk", "critical", "T1", "M1", false, false, 10, none⟩] =
      [] ∧
    alertIsActive 20
      ⟨1, 1, "health_risk", "critical", "T1", "M1", false, false, 10, none⟩ =
      true :=
  ⟨rfl, by decide⟩

/-- C8 (amended): every alert is created with the type-determined TTL —
7 days for `nutrition_gap` and `pattern_concern`, 3 days for
`goal_deviation`, 14 days for `health_risk` — but listing a user's active
alerts always returns the empty list (the listing query references the
never-imported name `or_`, so every call raises `NameError` and the handler
returns `[]`); in particular even a non-dismissed, unexpired alert of the
queried user is never listed. -/
theorem c8_alert_ttl_and_active_listing :
    (∀ (now : ℚ) (uid : ℕ) (db : List HealthAlert),
      getActiveAlerts now uid db = []) ∧
    (∀ (now : ℚ) (uid : ℕ) (db : List HealthAlert) (a : HealthAlert),
      a ∈ db → a.user_id = uid → alertIsActive now a = true →
        a ∉ getActiveAlerts now uid db) ∧
    (∀ now : ℚ, alertExpiry now "nutrition_gap" = some (now + 7) ∧
      alertExpiry now "pattern_concern" = some (now + 7) ∧
      alertExpiry now "goal_deviation" = some (now + 3) ∧
      alertExpiry now "health_risk" = some (now + 14)) ∧
    (∀ (now : ℚ) (db : List HealthAlert) (nid uid : ℕ)
      (atype sev ttl msg : String), ∃ r : HealthAlert,
      createAlert now db nid uid atype sev ttl msg = db ++ [r] ∧
        r.expires_at = alertExpiry now atype ∧ r.triggered_at = now ∧
        r.is_dismissed = false ∧ r.is_read = false ∧
        r.alert_type = atype ∧ r.severity = sev) := by
  refine ⟨fun now uid db => rfl, fun now uid db a _ _ _ => ?_, fun now => ?_,
    fun now db nid uid atype sev ttl msg => ?_⟩
  · simp [getActiveAlerts]
  · refine ⟨rfl, rfl, ?_, ?_⟩ <;> simp [alertExpiry]
  · exact ⟨_, rfl, rfl, rfl, rfl, rfl, rfl, rfl⟩

/-- C8 witness: the never-listed consequence applied to a concrete
non-dismissed, unexpired alert of user 1. -/
theorem c8_alert_ttl_and_active_listing_witness :
    (⟨1, 1, "health_risk", "critical", "T1", "M1", false, false, 10, none⟩ :
      HealthAlert) ∉
      getActiveAlerts 20 1
        [⟨1, 1, "health_risk", "critical", "T1", "M1", false, false, 10,
          none⟩] :=
  c8_alert_ttl_and_active_listing.2.1 20 1
    [⟨1, 1, "health_risk", "critical", "T1", "M1", false, false, 10, none⟩]
    ⟨1, 1, "health_risk", "critical", "T1", "M1", false, false, 10, none⟩
    (List.mem_singleton.mpr rfl) rfl (by decide)

/-- C10: dismissing or marking read with an id that does not exist for the
given user returns `False` and leaves every alert row unchanged; when the
alert exists for that user, the first matching row gets exactly the targeted
flag set (all other fields and all other rows untouched) and the call
returns `True`. -/
theorem c10_dismiss_and_read :
    (∀ (uid aid : ℕ) (db : List HealthAlert),
      (∀ a ∈ db, ¬(a.id = aid ∧ a.user_id = uid)) →
        dismissAlert uid aid db = (false, db) ∧
        markAlertRead uid aid db = (false, db)) ∧
    (∀ (uid aid : ℕ) (db : List HealthAlert),
      (∃ a ∈ db, a.id = aid ∧ a.user_id = uid) →
        ∃ pre x post,
          db = pre ++ x :: post ∧
          (∀ a ∈ pre, ¬(a.id = aid ∧ a.user_id = uid)) ∧
          x.id = aid ∧ x.user_id = uid ∧
          dismissAlert uid aid db =
            (true, pre ++ { x with is_dismissed := true } :: post) ∧
          markAlertRead uid aid db =
            (true, pre ++ { x with is_read := true } :: post)) := by
  constructor
  · intro uid aid db h
    induction db with
    | nil => exact ⟨rfl, rfl⟩
    | cons a rest ih =>
      have hcond : (a.id == aid && a.user_id == uid) = false := by
        have := h a (List.mem_cons_self a rest)
        simp only [Bool.and_eq_false_iff, beq_eq_false_iff_ne, ne_eq]
        tauto
      have hrest := ih (fun a ha => h a (List.mem_cons_of_mem _ ha))
      constructor
      · simp only [dismissAlert, hcond, Bool.false_eq_true, if_false,
          hrest.1]
      · simp only [markAlertRead, hcond, Bool.false_eq_true, if_false,
          hrest.2]
  · intro uid aid db h
    induction db with
    | nil => simp at h
    | cons a rest ih =>
      by_cases hmatch : a.id = aid ∧ a.user_id = uid
      · refine ⟨[], a, rest, rfl, by simp, hmatch.1, hmatch.2, ?_, ?_⟩
        · simp [dismissAlert, hmatch.1, hmatch.2]
        · simp [markAlertRead, hmatch.1, hmatch.2]
      · have hcond : (a.id == aid && a.user_id == uid) = false := by
          simp only [Bool.and_eq_false_iff, beq_eq_false_iff_ne, ne_eq]
          tauto
        have hrest : ∃ b ∈ rest, b.id = aid ∧ b.user_id = uid := by
          obtain ⟨b, hb, hprop⟩ := h
          rcases List.mem_cons.mp hb with rfl | hb'
          · exact absurd hprop hmatch
          · exact ⟨b, hb', hprop⟩
        obtain ⟨pre, x, post, heq, hpre, hx1, hx2, hd, hm⟩ := ih hrest
        refine ⟨a :: pre, x, post, by rw [heq, List.cons_append], ?_, hx1, hx2, ?_, ?_⟩
        · intro a' ha'
          rcases List.mem_cons.mp ha' with rfl | ha''
          · exact hmatch
          · exact hpre a' ha''
        · simp only [dismissAlert, hcond, Bool.false_eq_true, if_false, hd,
            List.cons_append]
        · simp only [markAlertRead, hcond, Bool.false_eq_true, if_false, hm,
            List.cons_append]

/-- C10 witness: the miss case applied to a one-row table whose alert has a
different id, and the hit case applied to the same table with the matching
id and user. -/
theorem c10_dismiss_and_read_witness :
    (dismissAlert 3 5
        [⟨2, 3, "nutrition_gap", "low", "t", "m", false, false, 0, none⟩] =
      (false, [⟨2, 3, "nutrition_gap", "low", "t", "m", false, false, 0, none⟩]) ∧
     markAlertRead 3 5
        [⟨2, 3, "nutrition_gap", "low", "t", "m", false, false, 0, none⟩] =
      (false, [⟨2, 3, "nutrition_gap", "low", "t", "m", false, false, 0, none⟩])) ∧
    (∃ pre x post,
      [(⟨2, 3, "nutrition_gap", "low", "t", "m", false, false, 0, none⟩ :
        HealthAlert)] = pre ++ x :: post ∧
      (∀ a ∈ pre, ¬(a.id = 2 ∧ a.user_id = 3)) ∧
      x.id = 2 ∧ x.user_id = 3 ∧
      dismissAlert 3 2
          [⟨2, 3, "nutrition_gap", "low", "t", "m", false, false, 0, none⟩] =
        (true, pre ++ { x with is_dismissed := true } :: post) ∧
      markAlertRead 3 2
          [⟨2, 3, "nutrition_gap", "low", "t", "m", false, false, 0, none⟩] =
        (true, pre ++ { x with is_read := true } :: post)) :=
  ⟨c10_dismiss_and_read.1 3 5
      [⟨2, 3, "nutrition_gap", "low", "t", "m", false, false, 0, none⟩]
      (by intro a ha; simp at ha; simp [ha]),
   c10_dismiss_and_read.2 3 2
      [⟨2, 3, "nutrition_gap", "low", "t", "m", false, false, 0, none⟩]
      ⟨⟨2, 3, "nutrition_gap", "low", "t", "m", false, false, 0, none⟩,
        List.mem_singleton.mpr rfl, rfl, rfl⟩⟩
